import Mathlib

/-!
Verification of the calendar-feed backend (`src/server.js`, `src/server-old.js`).

The feed renderer (`generateCalendarFeed`), its helpers
(`formatDateForICS`, `escapeICSText`) and the subscription-feed HTTP
handler are embedded as executable Lean functions.  JavaScript `Date`
values are modelled as normalized civil date-times (`JSDate`): the
server declares `X-WR-TIMEZONE:UTC` and the deployment runs with a UTC
clock, so a `new Date("YYYY-MM-DDTHH:MM")` construction is the civil
components themselves, and `getTime() + delta` is millisecond addition
with calendar carry.  Strings manipulated by regex replaces are
modelled at the character-list level (`String.replace(/c/g, r)` on a
one-character pattern is exactly a flat-map over characters).
-/

namespace WhatsAppCal

/-- Decimal digit character for `n % 10`. -/
def digitChar (n : Nat) : Char :=
  match n % 10 with
  | 0 => '0' | 1 => '1' | 2 => '2' | 3 => '3' | 4 => '4'
  | 5 => '5' | 6 => '6' | 7 => '7' | 8 => '8' | _ => '9'

/-- Decimal digits of `n` (most significant first), with structural fuel
so that the kernel can evaluate it.  `fuel ≥ 1 + log10 n` suffices. -/
def natDigitsAux : Nat → Nat → List Char
  | 0, _ => []
  | f + 1, n => if n < 10 then [digitChar n] else natDigitsAux f (n / 10) ++ [digitChar n]

/-- Decimal digits of `n`, most significant first (model of JS number
rendering for nonnegative integers). -/
def natDigits (n : Nat) : List Char := natDigitsAux (n + 1) n

/-- `digitChar` always yields a decimal digit character. -/
theorem digitChar_digit (n : Nat) :
    48 ≤ (digitChar n).toNat ∧ (digitChar n).toNat ≤ 57 := by
  unfold digitChar
  split <;> decide

/-- Zero-pad the decimal rendering of `n` to width `w` (model of the
fixed-width fields of `Date.prototype.toISOString`). -/
def padNat (w n : Nat) : List Char :=
  List.replicate (w - (natDigits n).length) '0' ++ natDigits n

/-- Every character produced by `natDigitsAux` is a decimal digit. -/
theorem natDigitsAux_digit (fuel n : Nat) :
    ∀ c ∈ natDigitsAux fuel n, 48 ≤ c.toNat ∧ c.toNat ≤ 57 := by
  induction fuel generalizing n with
  | zero => intro c hc; simp [natDigitsAux] at hc
  | succ f ih =>
    intro c hc
    simp only [natDigitsAux] at hc
    by_cases h : n < 10
    · simp [h] at hc
      subst hc
      exact digitChar_digit n
    · simp [h] at hc
      rcases hc with hc | hc
      · exact ih (n / 10) c hc
      · subst hc
        exact digitChar_digit n

/-- Every character produced by `padNat` is a decimal digit. -/
theorem padNat_digit (w n : Nat) :
    ∀ c ∈ padNat w n, 48 ≤ c.toNat ∧ c.toNat ≤ 57 := by
  intro c hc
  simp only [padNat, List.mem_append, List.mem_replicate] at hc
  rcases hc with ⟨_, hc⟩ | hc
  · subst hc; decide
  · exact natDigitsAux_digit (n + 1) n c hc

/-- A civil calendar date, as carried in the `event_date` column
(`"YYYY-MM-DD"` strings in the source). -/
structure CivilDate where
  year : Nat
  month : Nat
  day : Nat
deriving DecidableEq

/-- A time of day, as carried in the `start_time` / `end_time` columns
(`"HH:MM"` strings in the source). -/
structure TimeOfDay where
  hour : Nat
  minute : Nat
deriving DecidableEq

/-- Model of a JavaScript `Date`: a normalized civil UTC date-time.
The server runs with a UTC clock and declares `X-WR-TIMEZONE:UTC`, so
`new Date("YYYY-MM-DDTHH:MM")` yields exactly these components. -/
structure JSDate where
  year : Nat
  month : Nat
  day : Nat
  hour : Nat
  minute : Nat
  second : Nat
  ms : Nat
deriving DecidableEq

/-- Gregorian leap-year test. -/
def isLeapYear (y : Nat) : Bool :=
  (y % 4 == 0 && y % 100 != 0) || y % 400 == 0

/-- Number of days in month `m` of year `y` (months are 1-based). -/
def daysInMonth (y m : Nat) : Nat :=
  if m = 2 then (if isLeapYear y then 29 else 28)
  else if m = 4 ∨ m = 6 ∨ m = 9 ∨ m = 11 then 30
  else 31

/-- The calendar day after `d`. -/
def civilNextDay (d : CivilDate) : CivilDate :=
  if d.day < daysInMonth d.year d.month then ⟨d.year, d.month, d.day + 1⟩
  else if d.month < 12 then ⟨d.year, d.month + 1, 1⟩
  else ⟨d.year + 1, 1, 1⟩

/-- The day after, leaving the time-of-day fields untouched. -/
def nextDay (d : JSDate) : JSDate :=
  let nd := civilNextDay ⟨d.year, d.month, d.day⟩
  { d with year := nd.year, month := nd.month, day := nd.day }

/-- Advance a date by `n` whole days. -/
def addDays : Nat → JSDate → JSDate
  | 0, d => d
  | n + 1, d => addDays n (nextDay d)

/-- Milliseconds elapsed since local midnight. -/
def msOfDay (d : JSDate) : Nat :=
  ((d.hour * 60 + d.minute) * 60 + d.second) * 1000 + d.ms

/-- Replace the time-of-day fields from a millisecond count `< 86400000`. -/
def setMsOfDay (d : JSDate) (t : Nat) : JSDate :=
  { d with hour := t / 3600000, minute := t % 3600000 / 60000,
           second := t % 60000 / 1000, ms := t % 1000 }

/-- Model of `new Date(d.getTime() + delta)`: millisecond addition on the
epoch timeline, expressed on normalized civil components. -/
def addMs (delta : Nat) (d : JSDate) : JSDate :=
  let total := msOfDay d + delta
  setMsOfDay (addDays (total / 86400000) d) (total % 86400000)

/-- Character sequence of `Date.prototype.toISOString` output
(`YYYY-MM-DDTHH:MM:SS.mmmZ`); a faithful model for years 0–9999. -/
def toISOChars (d : JSDate) : List Char :=
  padNat 4 d.year ++ '-' :: padNat 2 d.month ++ '-' :: padNat 2 d.day ++
    'T' :: padNat 2 d.hour ++ ':' :: padNat 2 d.minute ++ ':' :: padNat 2 d.second ++
    '.' :: padNat 3 d.ms ++ ['Z']

/-- `date.toISOString()` as a string. -/
def toISOString (d : JSDate) : String := String.mk (toISOChars d)

/-- Model of `.replace(/[-:]/g, '')`: drop every dash and colon. -/
def stripDashColon (l : List Char) : List Char :=
  l.filter (fun c => !(c == '-' || c == ':'))

/-- Model of `.split('.')[0]`: the prefix before the first dot. -/
def takeUntilDot (l : List Char) : List Char :=
  l.takeWhile (fun c => c != '.')

/-- Embedding of `formatDateForICS` (src/server.js:65-67):
`date.toISOString().replace(/[-:]/g, '').split('.')[0] + 'Z'`. -/
def formatDateForICS (d : JSDate) : String :=
  String.mk (takeUntilDot (stripDashColon (toISOChars d))) ++ "Z"

/-- A decimal digit character is neither a dash, a colon, nor a dot. -/
theorem digit_not_punct {c : Char} (h1 : 48 ≤ c.toNat) (h2 : c.toNat ≤ 57) :
    c ≠ '-' ∧ c ≠ ':' ∧ c ≠ '.' := by
  refine ⟨fun he => ?_, fun he => ?_, fun he => ?_⟩
  · subst he; exact absurd h1 (by decide)
  · subst he; exact absurd h2 (by decide)
  · subst he; exact absurd h1 (by decide)

/-- Padded digit runs pass the dash/colon strip untouched. -/
theorem filter_padNat (w n : Nat) :
    (padNat w n).filter (fun c => !(c == '-' || c == ':')) = padNat w n := by
  rw [List.filter_eq_self]
  intro c hc
  obtain ⟨h1, h2⟩ := padNat_digit w n c hc
  obtain ⟨hd, hc2, _⟩ := digit_not_punct h1 h2
  simp [hd, hc2]

/-- Padded digit runs survive `takeWhile (· != '.')` untouched. -/
theorem takeWhile_padNat (w n : Nat) (l : List Char) :
    (padNat w n ++ l).takeWhile (fun c => c != '.') =
      padNat w n ++ l.takeWhile (fun c => c != '.') := by
  apply List.takeWhile_append_of_pos
  intro c hc
  obtain ⟨h1, h2⟩ := padNat_digit w n c hc
  obtain ⟨_, _, hp⟩ := digit_not_punct h1 h2
  simp [hp]

/-- The dash/colon strip of the ISO rendering: only the separators go. -/
theorem stripDashColon_toISO (d : JSDate) :
    stripDashColon (toISOChars d) =
      padNat 4 d.year ++ padNat 2 d.month ++ padNat 2 d.day ++
        'T' :: (padNat 2 d.hour ++ padNat 2 d.minute ++ padNat 2 d.second ++
          '.' :: padNat 3 d.ms ++ ['Z']) := by
  simp only [stripDashColon, toISOChars, List.filter_append, List.filter_cons,
    filter_padNat]
  norm_num
  simp

/-- `formatDateForICS` renders exactly `YYYYMMDDTHHMMSS` followed by `Z`:
the separator strip and the fractional-second truncation leave the padded
digit fields intact. -/
theorem formatDateForICS_eq (d : JSDate) :
    formatDateForICS d =
      String.mk (padNat 4 d.year ++ padNat 2 d.month ++ padNat 2 d.day ++
        'T' :: (padNat 2 d.hour ++ padNat 2 d.minute ++ padNat 2 d.second)) ++ "Z" := by
  unfold formatDateForICS takeUntilDot
  rw [stripDashColon_toISO]
  rw [show padNat 4 d.year ++ padNat 2 d.month ++ padNat 2 d.day ++
        'T' :: (padNat 2 d.hour ++ padNat 2 d.minute ++ padNat 2 d.second ++
          '.' :: padNat 3 d.ms ++ ['Z']) =
      padNat 4 d.year ++ (padNat 2 d.month ++ (padNat 2 d.day ++
        'T' :: (padNat 2 d.hour ++ (padNat 2 d.minute ++ (padNat 2 d.second ++
          '.' :: (padNat 3 d.ms ++ ['Z'])))))) by simp]
  rw [takeWhile_padNat, takeWhile_padNat, takeWhile_padNat]
  rw [List.takeWhile_cons]
  norm_num
  rw [takeWhile_padNat, takeWhile_padNat, takeWhile_padNat]
  rw [List.takeWhile_cons]
  norm_num
  simp

/-- Model of `s.replace(/t/g, repl)` for a single-character pattern `t`:
each occurrence of `t` becomes `repl`, other characters are kept. -/
def replaceChar (t : Char) (repl : List Char) (l : List Char) : List Char :=
  l.flatMap (fun c => if c = t then repl else [c])

/-- Embedding of `escapeICSText` (src/server.js:69-77): falsy input gives
`''`; otherwise the five chained global replaces, in source order. -/
def escapeICSText (text : Option String) : String :=
  match text with
  | none => ""
  | some s =>
    if s = "" then ""
    else
      String.mk
        (replaceChar '\r' []
          (replaceChar '\n' ['\\', 'n']
            (replaceChar ',' ['\\', ',']
              (replaceChar ';' ['\\', ';']
                (replaceChar '\\' ['\\', '\\'] s.data)))))

/-- The spec's escaping rule, as a single simultaneous per-character map:
backslash → double backslash, semicolon → escaped semicolon, comma →
escaped comma, newline → literal `\n`, carriage return → removed. -/
def escChar (c : Char) : List Char :=
  if c = '\\' then ['\\', '\\']
  else if c = ';' then ['\\', ';']
  else if c = ',' then ['\\', ',']
  else if c = '\n' then ['\\', 'n']
  else if c = '\r' then []
  else [c]

/-- The chained replaces of the source, applied to a character list. -/
def escapeChain (l : List Char) : List Char :=
  replaceChar '\r' []
    (replaceChar '\n' ['\\', 'n']
      (replaceChar ',' ['\\', ',']
        (replaceChar ';' ['\\', ';']
          (replaceChar '\\' ['\\', '\\'] l))))

theorem replaceChar_append (t : Char) (repl : List Char) (a b : List Char) :
    replaceChar t repl (a ++ b) = replaceChar t repl a ++ replaceChar t repl b := by
  simp [replaceChar]

theorem escapeChain_append (a b : List Char) :
    escapeChain (a ++ b) = escapeChain a ++ escapeChain b := by
  simp [escapeChain, replaceChar_append]

/-- The five sequential replaces agree with the spec's simultaneous
per-character rule: no later pattern is ever introduced by an earlier
replacement. -/
theorem escapeChain_eq_flatMap (l : List Char) :
    escapeChain l = l.flatMap escChar := by
  induction l with
  | nil => rfl
  | cons c rest ih =>
    have hcons : escapeChain (c :: rest) = escapeChain [c] ++ escapeChain rest := by
      simpa using escapeChain_append [c] rest
    rw [hcons, List.flatMap_cons, ih]
    congr 1
    by_cases h1 : c = '\\'
    · subst h1; rfl
    by_cases h2 : c = ';'
    · subst h2; rfl
    by_cases h3 : c = ','
    · subst h3; rfl
    by_cases h4 : c = '\n'
    · subst h4; rfl
    by_cases h5 : c = '\r'
    · subst h5; rfl
    simp [escapeChain, replaceChar, escChar, h1, h2, h3, h4, h5]

theorem escapeICSText_data (s : String) :
    (escapeICSText (some s)).data = escapeChain s.data := by
  unfold escapeICSText
  by_cases h : s = ""
  · subst h; rfl
  · simp [h, escapeChain]

/-- Escaped text never contains a raw newline or carriage return. -/
theorem escapeICSText_no_newline (t : Option String) :
    ∀ c ∈ (escapeICSText t).data, c ≠ '\n' ∧ c ≠ '\r' := by
  intro c hc
  match t with
  | none => simp [escapeICSText] at hc
  | some s =>
    rw [escapeICSText_data, escapeChain_eq_flatMap] at hc
    simp only [List.mem_flatMap] at hc
    obtain ⟨a, _, ha⟩ := hc
    unfold escChar at ha
    by_cases h1 : a = '\\'
    · simp [h1] at ha; subst ha; exact ⟨by decide, by decide⟩
    by_cases h2 : a = ';'
    · simp [h1, h2] at ha; rcases ha with h | h <;> subst h <;> exact ⟨by decide, by decide⟩
    by_cases h3 : a = ','
    · simp [h1, h2, h3] at ha; rcases ha with h | h <;> subst h <;> exact ⟨by decide, by decide⟩
    by_cases h4 : a = '\n'
    · simp [h1, h2, h3, h4] at ha; rcases ha with h | h <;> subst h <;> exact ⟨by decide, by decide⟩
    by_cases h5 : a = '\r'
    · simp [h1, h2, h3, h4, h5] at ha
    · simp [h1, h2, h3, h4, h5] at ha
      subst ha
      exact ⟨h4, h5⟩

/-- The standard ICS unescape: a left-to-right scan mapping `\\` to a
backslash, `\;` to a semicolon, `\,` to a comma and `\n` to a newline. -/
def unescapeICS : List Char → List Char
  | [] => []
  | [c] => [c]
  | c1 :: c2 :: rest =>
    if c1 = '\\' then
      if c2 = '\\' then '\\' :: unescapeICS rest
      else if c2 = ';' then ';' :: unescapeICS rest
      else if c2 = ',' then ',' :: unescapeICS rest
      else if c2 = 'n' then '\n' :: unescapeICS rest
      else c1 :: unescapeICS (c2 :: rest)
    else c1 :: unescapeICS (c2 :: rest)

theorem unescapeICS_cons_of_ne (c : Char) (l : List Char) (h : c ≠ '\\') :
    unescapeICS (c :: l) = c :: unescapeICS l := by
  match l with
  | [] => rfl
  | c2 :: rest => simp [unescapeICS, h]

/-- Unescaping an escaped string yields the original minus its carriage
returns: the escape map is injectively undone pattern by pattern, except
that `\r` was erased outright. -/
theorem unescape_escape (l : List Char) :
    unescapeICS (l.flatMap escChar) = l.filter (fun c => c != '\r') := by
  induction l with
  | nil => rfl
  | cons c rest ih =>
    rw [List.flatMap_cons]
    by_cases h1 : c = '\\'
    · subst h1
      simpa [unescapeICS, escChar, List.filter_cons] using ih
    by_cases h2 : c = ';'
    · subst h2
      simpa [unescapeICS, escChar, List.filter_cons] using ih
    by_cases h3 : c = ','
    · subst h3
      simpa [unescapeICS, escChar, List.filter_cons] using ih
    by_cases h4 : c = '\n'
    · subst h4
      simpa [unescapeICS, escChar, List.filter_cons] using ih
    by_cases h5 : c = '\r'
    · subst h5
      simpa [escChar, List.filter_cons] using ih
    · rw [show escChar c = [c] by simp [escChar, h1, h2, h3, h4, h5]]
      rw [List.singleton_append, unescapeICS_cons_of_ne c _ h1,
        List.filter_cons_of_pos (by simp [h5]), ih]

/-- JavaScript truthiness for an optional string field: `undefined`,
`null` and `''` are falsy. -/
def truthy : Option String → Bool
  | none => false
  | some s => s ≠ ""

/-- An event object as handed to the feed generator (the mapped rows of
the `events` table, src/server.js:473-482). -/
structure CalEvent where
  id : String
  title : Option String
  description : Option String
  location : Option String
  date : CivilDate
  time : Option TimeOfDay
  endTime : Option TimeOfDay
deriving DecidableEq

/-- The calendar snapshot object passed to `generateCalendarFeed`
(src/server.js:469-483). -/
structure CalendarSnapshot where
  id : String
  name : Option String
  description : Option String
  events : Option (List CalEvent)
deriving DecidableEq

/-- `new Date(event.date + 'T' + time)` for a valid date string and a
valid `HH:MM` time string, with the server clock in UTC. -/
def dateFromParts (d : CivilDate) (t : TimeOfDay) : JSDate :=
  ⟨d.year, d.month, d.day, t.hour, t.minute, 0, 0⟩

/-- `const startDate = new Date(event.date + 'T' + (event.time || '12:00'))`
(src/server.js:101). -/
def eventStartDate (e : CalEvent) : JSDate :=
  dateFromParts e.date (e.time.getD ⟨12, 0⟩)

/-- `const endDate = event.endTime ? new Date(event.date + 'T' + event.endTime)
: new Date(startDate.getTime() + 60 * 60 * 1000)` (src/server.js:102-104). -/
def eventEndDate (e : CalEvent) : JSDate :=
  match e.endTime with
  | some et => dateFromParts e.date et
  | none => addMs 3600000 (eventStartDate e)

/-- The text appended to `icsContent` for one event inside the
`events.forEach` loop (src/server.js:100-129); `now` is the `new Date()`
taken at render time for `DTSTAMP`. -/
def eventChunk (now : JSDate) (e : CalEvent) : String :=
  "BEGIN:VEVENT\nUID:" ++ (e.id ++ "@calendar-app.com") ++
    "\nDTSTAMP:" ++ formatDateForICS now ++
    "\nDTSTART:" ++ formatDateForICS (eventStartDate e) ++
    "\nDTEND:" ++ formatDateForICS (eventEndDate e) ++
    "\nSUMMARY:" ++ escapeICSText e.title ++
    (if truthy e.description then "\nDESCRIPTION:" ++ escapeICSText e.description else "") ++
    (if truthy e.location then "\nLOCATION:" ++ escapeICSText e.location else "") ++
    "\nSTATUS:CONFIRMED\nSEQUENCE:0\nEND:VEVENT\n"

/-- Embedding of `generateCalendarFeed` (src/server.js:79-133): header
template, optional calendar description line, refresh metadata, one
appended chunk per event in input order, and the closing marker.  The
render-time `new Date()` is the explicit parameter `now`. -/
def generateCalendarFeed (now : JSDate) (calendar : CalendarSnapshot) : String :=
  let events := calendar.events.getD []
  let icsContent :=
    "BEGIN:VCALENDAR\nVERSION:2.0\nPRODID:-//Calendar App//WhatsApp Calendar//EN\nCALSCALE:GREGORIAN\nMETHOD:PUBLISH\nX-WR-CALNAME:" ++
      escapeICSText calendar.name
  let icsContent :=
    if truthy calendar.description then
      icsContent ++ ("\nX-WR-CALDESC:" ++ escapeICSText calendar.description)
    else icsContent
  let icsContent :=
    icsContent ++ "\nX-WR-TIMEZONE:UTC\nREFRESH-INTERVAL;VALUE=DURATION:PT1H\nX-PUBLISHED-TTL:PT1H\n"
  let icsContent := events.foldl (fun acc e => acc ++ eventChunk now e) icsContent
  icsContent ++ "END:VCALENDAR"

/-- Concatenation of the rendered pieces of a list, in list order. -/
def concatMapStr {α : Type} (f : α → String) : List α → String
  | [] => ""
  | e :: rest => f e ++ concatMapStr f rest

theorem foldl_append_concatMap {α : Type} (f : α → String) (l : List α) (init : String) :
    l.foldl (fun acc e => acc ++ f e) init = init ++ concatMapStr f l := by
  induction l generalizing init with
  | nil => simp [concatMapStr, String.append_empty]
  | cons e rest ih => simp [concatMapStr, List.foldl_cons, ih, String.append_assoc]

/-- The header block as the spec lists it: format version, product
identifier, escaped display name, escaped optional description, fixed
UTC timezone declaration, hourly refresh hints. -/
def specHeader (cal : CalendarSnapshot) : String :=
  "BEGIN:VCALENDAR\nVERSION:2.0\nPRODID:-//Calendar App//WhatsApp Calendar//EN\nCALSCALE:GREGORIAN\nMETHOD:PUBLISH\nX-WR-CALNAME:" ++
    escapeICSText cal.name ++
    (if truthy cal.description then "\nX-WR-CALDESC:" ++ escapeICSText cal.description else "") ++
    "\nX-WR-TIMEZONE:UTC\nREFRESH-INTERVAL;VALUE=DURATION:PT1H\nX-PUBLISHED-TTL:PT1H\n"

/-- One event block as the spec lists it, field by field in fixed order:
UID (event identifier ++ fixed domain suffix, unescaped), generation
timestamp, start timestamp, end timestamp, escaped title, escaped
description if present, escaped location if present, fixed confirmed
status, sequence number zero. -/
def specEventBlock (now : JSDate) (e : CalEvent) : String :=
  "BEGIN:VEVENT\nUID:" ++ (e.id ++ "@calendar-app.com") ++
    "\nDTSTAMP:" ++ formatDateForICS now ++
    "\nDTSTART:" ++ formatDateForICS (eventStartDate e) ++
    "\nDTEND:" ++ formatDateForICS (eventEndDate e) ++
    "\nSUMMARY:" ++ escapeICSText e.title ++
    (if truthy e.description then "\nDESCRIPTION:" ++ escapeICSText e.description else "") ++
    (if truthy e.location then "\nLOCATION:" ++ escapeICSText e.location else "") ++
    "\nSTATUS:CONFIRMED\nSEQUENCE:0\nEND:VEVENT\n"

/-- The renderer emits exactly the spec header, then one block per event
in input order, then the closing marker. -/
theorem generateCalendarFeed_structure (now : JSDate) (cal : CalendarSnapshot) :
    generateCalendarFeed now cal =
      specHeader cal ++ concatMapStr (specEventBlock now) (cal.events.getD []) ++
        "END:VCALENDAR" := by
  unfold generateCalendarFeed specHeader
  dsimp only
  rw [foldl_append_concatMap]
  by_cases h : truthy cal.description
  · simp only [h, if_true, String.append_assoc]
    rfl
  · simp only [h, if_false, Bool.false_eq_true, String.append_empty, String.append_assoc]
    rfl

namespace OldSrv

/-- Embedding of `formatDateForICS` (src/server-old.js:41-43); textually
identical to the current draft's helper. -/
def formatDateForICS (d : JSDate) : String :=
  String.mk (takeUntilDot (stripDashColon (toISOChars d))) ++ "Z"

/-- Embedding of `escapeICSText` (src/server-old.js:45-53); textually
identical to the current draft's helper. -/
def escapeICSText (text : Option String) : String :=
  match text with
  | none => ""
  | some s =>
    if s = "" then ""
    else
      String.mk
        (replaceChar '\r' []
          (replaceChar '\n' ['\\', 'n']
            (replaceChar ',' ['\\', ',']
              (replaceChar ';' ['\\', ';']
                (replaceChar '\\' ['\\', '\\'] s.data)))))

/-- The per-event appended text of src/server-old.js:76-105. -/
def eventChunk (now : JSDate) (e : CalEvent) : String :=
  "BEGIN:VEVENT\nUID:" ++ (e.id ++ "@calendar-app.com") ++
    "\nDTSTAMP:" ++ formatDateForICS now ++
    "\nDTSTART:" ++ formatDateForICS (eventStartDate e) ++
    "\nDTEND:" ++ formatDateForICS (eventEndDate e) ++
    "\nSUMMARY:" ++ escapeICSText e.title ++
    (if truthy e.description then "\nDESCRIPTION:" ++ escapeICSText e.description else "") ++
    (if truthy e.location then "\nLOCATION:" ++ escapeICSText e.location else "") ++
    "\nSTATUS:CONFIRMED\nSEQUENCE:0\nEND:VEVENT\n"

/-- Embedding of `generateCalendarFeed` from the earlier draft
(src/server-old.js:55-109). -/
def generateCalendarFeed (now : JSDate) (calendar : CalendarSnapshot) : String :=
  let events := calendar.events.getD []
  let icsContent :=
    "BEGIN:VCALENDAR\nVERSION:2.0\nPRODID:-//Calendar App//WhatsApp Calendar//EN\nCALSCALE:GREGORIAN\nMETHOD:PUBLISH\nX-WR-CALNAME:" ++
      escapeICSText calendar.name
  let icsContent :=
    if truthy calendar.description then
      icsContent ++ ("\nX-WR-CALDESC:" ++ escapeICSText calendar.description)
    else icsContent
  let icsContent :=
    icsContent ++ "\nX-WR-TIMEZONE:UTC\nREFRESH-INTERVAL;VALUE=DURATION:PT1H\nX-PUBLISHED-TTL:PT1H\n"
  let icsContent := events.foldl (fun acc e => acc ++ eventChunk now e) icsContent
  icsContent ++ "END:VCALENDAR"

end OldSrv

/-- A calendar date the `"YYYY-MM-DD"` column can hold (and for which
`toISOChars` is a faithful model of `toISOString`). -/
def CivilDate.Valid (d : CivilDate) : Prop :=
  1 ≤ d.month ∧ d.month ≤ 12 ∧ 1 ≤ d.day ∧ d.day ≤ daysInMonth d.year d.month ∧
    d.year ≤ 9999

instance (d : CivilDate) : Decidable d.Valid := by
  unfold CivilDate.Valid
  exact inferInstance

/-- A time of day the `"HH:MM"` column can hold. -/
def TimeOfDay.Valid (t : TimeOfDay) : Prop := t.hour < 24 ∧ t.minute < 60

instance (t : TimeOfDay) : Decidable t.Valid := by
  unfold TimeOfDay.Valid
  exact inferInstance

/-- The spec's timestamp format: the date and time-of-day rendered as
`YYYYMMDDTHHMMSSZ`, no separators, no fractional seconds, trailing `Z`
(seconds are always `00`: the stored times carry no seconds). -/
def specTimestamp (d : CivilDate) (t : TimeOfDay) : String :=
  String.mk (padNat 4 d.year ++ padNat 2 d.month ++ padNat 2 d.day ++
    'T' :: (padNat 2 t.hour ++ padNat 2 t.minute ++ padNat 2 0)) ++ "Z"

/-- The instant one hour after `(d, t)`, in civil terms: bump the hour,
rolling into the next calendar day past 23:59. -/
def specPlusOneHour (d : CivilDate) (t : TimeOfDay) : CivilDate × TimeOfDay :=
  if t.hour + 1 < 24 then (d, ⟨t.hour + 1, t.minute⟩)
  else (civilNextDay d, ⟨0, t.minute⟩)

/-- Millisecond addition of one hour agrees with the civil description:
`getTime() + 3600000` bumps the hour, carrying into the next day. -/
theorem addMs_one_hour (y m d h mi : Nat) (hh : h < 24) (hm : mi < 60) :
    addMs 3600000 ⟨y, m, d, h, mi, 0, 0⟩ =
      ⟨(specPlusOneHour ⟨y, m, d⟩ ⟨h, mi⟩).1.year,
       (specPlusOneHour ⟨y, m, d⟩ ⟨h, mi⟩).1.month,
       (specPlusOneHour ⟨y, m, d⟩ ⟨h, mi⟩).1.day,
       (specPlusOneHour ⟨y, m, d⟩ ⟨h, mi⟩).2.hour,
       (specPlusOneHour ⟨y, m, d⟩ ⟨h, mi⟩).2.minute, 0, 0⟩ := by
  unfold addMs msOfDay setMsOfDay specPlusOneHour
  dsimp only
  by_cases hcase : h + 1 < 24
  · have h0 : (((h * 60 + mi) * 60 + 0) * 1000 + 0 + 3600000) / 86400000 = 0 := by omega
    rw [h0, if_pos hcase]
    simp only [addDays]
    simp only [JSDate.mk.injEq, eq_self_iff_true, true_and, and_true]
    omega
  · have h23 : h = 23 := by omega
    subst h23
    have h1 : (((23 * 60 + mi) * 60 + 0) * 1000 + 0 + 3600000) / 86400000 = 1 := by omega
    rw [h1, if_neg hcase]
    simp only [addDays, nextDay]
    simp only [JSDate.mk.injEq, eq_self_iff_true, true_and, and_true]
    omega

/-- C1: for every event with a representable date and valid times, the
rendered DTSTART value is the event's date combined with its start
time-of-day (noon when absent) in `YYYYMMDDTHHMMSSZ` form; the DTEND
value is the date combined with the end time-of-day when present, and
otherwise the instant exactly one hour after DTSTART, in the same
form. -/
theorem claim1_timestamps (e : CalEvent) (hd : e.date.Valid)
    (ht : (e.time.getD ⟨12, 0⟩).Valid)
    (het : ∀ t, e.endTime = some t → t.Valid) :
    formatDateForICS (eventStartDate e) = specTimestamp e.date (e.time.getD ⟨12, 0⟩) ∧
      (∀ t, e.endTime = some t →
        formatDateForICS (eventEndDate e) = specTimestamp e.date t) ∧
      (e.endTime = none →
        formatDateForICS (eventEndDate e) =
          specTimestamp (specPlusOneHour e.date (e.time.getD ⟨12, 0⟩)).1
            (specPlusOneHour e.date (e.time.getD ⟨12, 0⟩)).2) := by
  refine ⟨?_, ?_, ?_⟩
  · rw [formatDateForICS_eq]
    rfl
  · intro t hsome
    unfold eventEndDate
    rw [hsome]
    rw [formatDateForICS_eq]
    rfl
  · intro hnone
    unfold eventEndDate
    rw [hnone]
    unfold eventStartDate dateFromParts
    rw [addMs_one_hour e.date.year e.date.month e.date.day
      (e.time.getD ⟨12, 0⟩).hour (e.time.getD ⟨12, 0⟩).minute ht.1 ht.2]
    rw [formatDateForICS_eq]
    rfl

/-- C1 witness: a concrete event on 2024-06-01 at 09:00 with no end time
renders DTSTART 09:00:00Z and DTEND 10:00:00Z on the same day. -/
theorem claim1_timestamps_witness :
    formatDateForICS
        (eventStartDate ⟨"e1", some "Standup", none, none, ⟨2024, 6, 1⟩, some ⟨9, 0⟩, none⟩) =
      "20240601T090000Z" ∧
    formatDateForICS
        (eventEndDate ⟨"e1", some "Standup", none, none, ⟨2024, 6, 1⟩, some ⟨9, 0⟩, none⟩) =
      "20240601T100000Z" := by
  have h := claim1_timestamps ⟨"e1", some "Standup", none, none, ⟨2024, 6, 1⟩, some ⟨9, 0⟩, none⟩
    (by decide) (by decide) (fun t ht => nomatch ht)
  refine ⟨?_, ?_⟩
  · rw [h.1]
    decide
  · rw [h.2.2 rfl]
    decide

/-- C3: for every input, `escapeICSText` acts as the simultaneous
per-character map `escChar` (backslash → double backslash, semicolon →
escaped semicolon, comma → escaped comma, newline → literal `\n`,
carriage return removed), and absent or empty text yields the empty
string. -/
theorem claim3_escape :
    (∀ text : Option String,
        (escapeICSText text).data = (text.getD "").data.flatMap escChar) ∧
      escapeICSText none = "" ∧ escapeICSText (some "") = "" := by
  refine ⟨fun text => ?_, rfl, rfl⟩
  match text with
  | none => rfl
  | some s =>
    rw [escapeICSText_data, escapeChain_eq_flatMap]
    rfl

/-- C4 counterexample: the round-trip claim fails as stated.  The string
`"\r,"` contains a comma, yet escaping removes its carriage return, so
the standard unescape recovers `","`, not the original. -/
theorem claim4_roundtrip_cex :
    ',' ∈ ("\r," : String).data ∧
      String.mk (unescapeICS (escapeICSText (some "\r,")).data) ≠ "\r," := by
  decide

/-- C4 (amended): for every input string containing no carriage return —
in particular any such string containing backslash, comma, semicolon, or
newline characters — escaping followed by the standard ICS unescape
recovers the original exactly. -/
theorem claim4_roundtrip_amended (s : String) (h : '\r' ∉ s.data) :
    String.mk (unescapeICS (escapeICSText (some s)).data) = s := by
  rw [escapeICSText_data, escapeChain_eq_flatMap, unescape_escape]
  rw [List.filter_eq_self.mpr (fun c hc => by
    have : c ≠ '\r' := fun he => h (he ▸ hc)
    simp [this])]

/-- C4 witness: a concrete round-trip through escape and unescape on a
string containing a backslash, a comma, a semicolon and a newline. -/
theorem claim4_roundtrip_witness :
    '\r' ∉ ("a,b;c\\d\ne" : String).data ∧
      String.mk (unescapeICS (escapeICSText (some "a,b;c\\d\ne")).data) = "a,b;c\\d\ne" :=
  ⟨by decide, claim4_roundtrip_amended "a,b;c\\d\ne" (by decide)⟩

/-- C5: the rendered document is exactly the header, followed by one
block per input event in input order (no re-sorting), followed by the
closing marker; each block lists, in fixed order, the UID (event
identifier plus the fixed domain suffix, unescaped), the generation
timestamp, the start and end timestamps, the escaped title, the escaped
description iff truthy, the escaped location iff truthy, the confirmed
status marker and sequence number zero. -/
theorem claim5_render_blocks (now : JSDate) (cal : CalendarSnapshot) :
    generateCalendarFeed now cal =
      specHeader cal ++ concatMapStr (specEventBlock now) (cal.events.getD []) ++
        "END:VCALENDAR" :=
  generateCalendarFeed_structure now cal

/-- Split a character list at every occurrence of `sep` (the segments of
`text.split(sep)`). -/
def splitOnChar (sep : Char) : List Char → List (List Char)
  | [] => [[]]
  | c :: rest =>
    if c = sep then [] :: splitOnChar sep rest
    else
      match splitOnChar sep rest with
      | [] => [[c]]
      | l :: ls => (c :: l) :: ls

theorem splitOnChar_ne_nil (sep : Char) (l : List Char) : splitOnChar sep l ≠ [] := by
  match l with
  | [] => simp [splitOnChar]
  | c :: rest =>
    by_cases h : c = sep
    · simp [splitOnChar, h]
    · simp only [splitOnChar, h, if_false]
      split
      · simp
      · simp

theorem splitOnChar_cons_sep (sep : Char) (l : List Char) :
    splitOnChar sep (sep :: l) = [] :: splitOnChar sep l := by
  simp [splitOnChar]

/-- Peeling a separator-free prefix off a split. -/
theorem splitOnChar_clean_append (sep : Char) (a b : List Char)
    (hd : List Char) (tl : List (List Char))
    (ha : ∀ c ∈ a, c ≠ sep) (hb : splitOnChar sep b = hd :: tl) :
    splitOnChar sep (a ++ b) = (a ++ hd) :: tl := by
  induction a with
  | nil => simpa using hb
  | cons c a ih =>
    have hc : c ≠ sep := ha c (by simp)
    have ha' : ∀ x ∈ a, x ≠ sep := fun x hx => ha x (by simp [hx])
    rw [List.cons_append]
    simp only [splitOnChar, hc, if_false]
    rw [ih ha']
    simp

theorem splitOnChar_clean (sep : Char) (a : List Char) (ha : ∀ c ∈ a, c ≠ sep) :
    splitOnChar sep a = [a] := by
  have := splitOnChar_clean_append sep a [] [] [] ha (by simp [splitOnChar])
  simpa using this

/-- Joins line contents with newline separators (no trailing newline). -/
def lineChain : List (List Char) → List Char
  | [] => []
  | [l] => l
  | l :: l2 :: rest => l ++ '\n' :: lineChain (l2 :: rest)

/-- Splitting a newline-joined chain of newline-free lines recovers
exactly those lines. -/
theorem splitOnChar_lineChain (ls : List (List Char)) (hne : ls ≠ [])
    (hclean : ∀ l ∈ ls, ∀ c ∈ l, c ≠ '\n') :
    splitOnChar '\n' (lineChain ls) = ls := by
  induction ls with
  | nil => exact absurd rfl hne
  | cons l rest ih =>
    cases rest with
    | nil => exact splitOnChar_clean '\n' l (fun c hc => hclean l (by simp) c hc)
    | cons l2 rest2 =>
      have hx := ih (by simp) (fun x hx => hclean x (List.mem_cons_of_mem _ hx))
      have h := splitOnChar_clean_append '\n' l ('\n' :: lineChain (l2 :: rest2))
        [] (l2 :: rest2) (fun c hc => hclean l (by simp) c hc)
        (by rw [splitOnChar_cons_sep, hx])
      show splitOnChar '\n' (l ++ '\n' :: lineChain (l2 :: rest2)) = l :: l2 :: rest2
      simpa using h

set_option maxRecDepth 16000 in
/-- The lines of `specHeader cal ++ "END:VCALENDAR"`: the five fixed
header lines, the name line, the optional description line, the three
fixed metadata lines, and the closing marker — escaped text cannot
introduce line breaks. -/
theorem lines_header_footer (cal : CalendarSnapshot) :
    splitOnChar '\n' (specHeader cal ++ "END:VCALENDAR").data =
      ["BEGIN:VCALENDAR".data, "VERSION:2.0".data,
        "PRODID:-//Calendar App//WhatsApp Calendar//EN".data,
        "CALSCALE:GREGORIAN".data, "METHOD:PUBLISH".data,
        "X-WR-CALNAME:".data ++ (escapeICSText cal.name).data] ++
      (if truthy cal.description then
        ["X-WR-CALDESC:".data ++ (escapeICSText cal.description).data] else []) ++
      ["X-WR-TIMEZONE:UTC".data, "REFRESH-INTERVAL;VALUE=DURATION:PT1H".data,
        "X-PUBLISHED-TTL:PT1H".data, "END:VCALENDAR".data] := by
  have hname : ∀ c ∈ "X-WR-CALNAME:".data ++ (escapeICSText cal.name).data, c ≠ '\n' := by
    intro c hc
    rcases List.mem_append.mp hc with hc | hc
    · exact fun he => absurd (he ▸ hc) (by decide)
    · exact (escapeICSText_no_newline cal.name c hc).1
  have hdesc : ∀ c ∈ "X-WR-CALDESC:".data ++ (escapeICSText cal.description).data, c ≠ '\n' := by
    intro c hc
    rcases List.mem_append.mp hc with hc | hc
    · exact fun he => absurd (he ▸ hc) (by decide)
    · exact (escapeICSText_no_newline cal.description c hc).1
  by_cases h : truthy cal.description
  · have hdata : (specHeader cal ++ "END:VCALENDAR").data =
        lineChain ["BEGIN:VCALENDAR".data, "VERSION:2.0".data,
          "PRODID:-//Calendar App//WhatsApp Calendar//EN".data,
          "CALSCALE:GREGORIAN".data, "METHOD:PUBLISH".data,
          "X-WR-CALNAME:".data ++ (escapeICSText cal.name).data,
          "X-WR-CALDESC:".data ++ (escapeICSText cal.description).data,
          "X-WR-TIMEZONE:UTC".data, "REFRESH-INTERVAL;VALUE=DURATION:PT1H".data,
          "X-PUBLISHED-TTL:PT1H".data, "END:VCALENDAR".data] := by
      unfold specHeader
      simp only [h, if_true, String.data_append, lineChain]
      simp [List.append_assoc, List.cons_append]
    rw [hdata]
    rw [splitOnChar_lineChain _ (by simp) ?clean]
    · simp [h]
    case clean =>
      intro l hl
      simp only [List.mem_cons, List.not_mem_nil, or_false] at hl
      rcases hl with rfl | rfl | rfl | rfl | rfl | rfl | rfl | rfl | rfl | rfl | rfl
      · decide
      · decide
      · decide
      · decide
      · decide
      · exact hname
      · exact hdesc
      · decide
      · decide
      · decide
      · decide
  · have hdata : (specHeader cal ++ "END:VCALENDAR").data =
        lineChain ["BEGIN:VCALENDAR".data, "VERSION:2.0".data,
          "PRODID:-//Calendar App//WhatsApp Calendar//EN".data,
          "CALSCALE:GREGORIAN".data, "METHOD:PUBLISH".data,
          "X-WR-CALNAME:".data ++ (escapeICSText cal.name).data,
          "X-WR-TIMEZONE:UTC".data, "REFRESH-INTERVAL;VALUE=DURATION:PT1H".data,
          "X-PUBLISHED-TTL:PT1H".data, "END:VCALENDAR".data] := by
      unfold specHeader
      simp only [h, if_false, Bool.false_eq_true, String.data_append, lineChain,
        String.append_empty]
      simp [List.append_assoc, List.cons_append]
    rw [hdata]
    rw [splitOnChar_lineChain _ (by simp) ?clean2]
    · simp [h]
    case clean2 =>
      intro l hl
      simp only [List.mem_cons, List.not_mem_nil, or_false] at hl
      rcases hl with rfl | rfl | rfl | rfl | rfl | rfl | rfl | rfl | rfl | rfl
      · decide
      · decide
      · decide
      · decide
      · decide
      · exact hname
      · decide
      · decide
      · decide
      · decide

/-- C7: a snapshot with an empty event sequence renders to a document
whose lines contain the header marker exactly once, the closing marker
exactly once, and no event-block markers at all. -/
theorem claim7_empty_calendar (now : JSDate) (cal : CalendarSnapshot)
    (h : cal.events.getD [] = []) :
    (splitOnChar '\n' (generateCalendarFeed now cal).data).count "BEGIN:VCALENDAR".data = 1 ∧
    (splitOnChar '\n' (generateCalendarFeed now cal).data).count "END:VCALENDAR".data = 1 ∧
    (splitOnChar '\n' (generateCalendarFeed now cal).data).count "BEGIN:VEVENT".data = 0 ∧
    (splitOnChar '\n' (generateCalendarFeed now cal).data).count "END:VEVENT".data = 0 := by
  have hdoc : generateCalendarFeed now cal = specHeader cal ++ "END:VCALENDAR" := by
    rw [generateCalendarFeed_structure, h]
    rw [show concatMapStr (specEventBlock now) ([] : List CalEvent) = "" from rfl]
    rw [String.append_empty]
  have hcal : ∀ t : List Char, t.headD ' ' ≠ 'X' →
      ¬("X-WR-CALNAME:".data ++ (escapeICSText cal.name).data = t) := by
    intro t ht he
    apply ht
    rw [← he]
    rfl
  have hcd : ∀ t : List Char, t.headD ' ' ≠ 'X' →
      ¬("X-WR-CALDESC:".data ++ (escapeICSText cal.description).data = t) := by
    intro t ht he
    apply ht
    rw [← he]
    rfl
  have n1 := hcal "BEGIN:VCALENDAR".data (by decide)
  have n2 := hcal "END:VCALENDAR".data (by decide)
  have n3 := hcal "BEGIN:VEVENT".data (by decide)
  have n4 := hcal "END:VEVENT".data (by decide)
  have m1 := hcd "BEGIN:VCALENDAR".data (by decide)
  have m2 := hcd "END:VCALENDAR".data (by decide)
  have m3 := hcd "BEGIN:VEVENT".data (by decide)
  have m4 := hcd "END:VEVENT".data (by decide)
  rw [hdoc, lines_header_footer]
  by_cases hd : truthy cal.description
  · simp only [hd, if_true]
    refine ⟨?_, ?_, ?_, ?_⟩ <;>
      simp [List.count_cons, List.count_append, n1, n2, n3, n4, m1, m2, m3, m4]
  · simp only [hd, if_false, Bool.false_eq_true]
    refine ⟨?_, ?_, ?_, ?_⟩ <;>
      simp [List.count_cons, List.count_append, n1, n2, n3, n4]

/-- C7 witness: the concrete empty calendar named Team renders with one
header marker, one closing marker and no event blocks. -/
theorem claim7_empty_calendar_witness :
    (splitOnChar '\n' (generateCalendarFeed ⟨2024, 1, 1, 0, 0, 0, 0⟩
        ⟨"gcal1", some "Team", none, some []⟩).data).count "BEGIN:VCALENDAR".data = 1 ∧
    (splitOnChar '\n' (generateCalendarFeed ⟨2024, 1, 1, 0, 0, 0, 0⟩
        ⟨"gcal1", some "Team", none, some []⟩).data).count "END:VCALENDAR".data = 1 ∧
    (splitOnChar '\n' (generateCalendarFeed ⟨2024, 1, 1, 0, 0, 0, 0⟩
        ⟨"gcal1", some "Team", none, some []⟩).data).count "BEGIN:VEVENT".data = 0 ∧
    (splitOnChar '\n' (generateCalendarFeed ⟨2024, 1, 1, 0, 0, 0, 0⟩
        ⟨"gcal1", some "Team", none, some []⟩).data).count "END:VEVENT".data = 0 :=
  claim7_empty_calendar ⟨2024, 1, 1, 0, 0, 0, 0⟩ ⟨"gcal1", some "Team", none, some []⟩ rfl

/-- A row of the `events` table as returned by the store's events query
(src/server.js:458-462). -/
structure EventRow where
  google_event_id : String
  title : Option String
  description : Option String
  location : Option String
  event_date : CivilDate
  start_time : Option TimeOfDay
  end_time : Option TimeOfDay
deriving DecidableEq

/-- A row of the `calendars` table (src/server.js:446-450). -/
structure DbCalendar where
  id : String
  google_calendar_id : String
  name : Option String
  description : Option String
deriving DecidableEq

/-- The parts of the HTTP response the feed endpoint sets
(src/server.js:452-455, 539-542). -/
structure HttpResponse where
  status : Nat
  contentType : Option String
  contentDisposition : Option String
  cacheControl : Option String
  body : String
deriving DecidableEq

/-- The row-to-event mapping inside the feed endpoint
(src/server.js:473-482). -/
def rowToEvent (e : EventRow) : CalEvent :=
  { id := e.google_event_id, title := e.title, description := e.description,
    location := e.location, date := e.event_date, time := e.start_time,
    endTime := e.end_time }

/-- The snapshot the endpoint assembles from the database rows:
`events || []` maps a failed events query (null data) to an empty
list. -/
def dbSnapshot (c : DbCalendar) (eventsResult : Except String (List EventRow)) :
    CalendarSnapshot :=
  { id := c.google_calendar_id, name := c.name, description := c.description,
    events := some
      (((match eventsResult with
          | .ok es => some es
          | .error _ => none : Option (List EventRow)).getD []).map rowToEvent) }

/-- Model of `name.replace(/[^a-z0-9]/gi, '_')` (src/server.js:540):
every character that is not an ASCII letter or digit becomes an
underscore. -/
def sanitizeFilename (s : String) : String :=
  String.mk (s.data.map (fun c => if c.isAlphanum then c else '_'))

/-- Embedding of the feed endpoint handler
`GET /api/subscriptions/:calendarId/feed.ics` (src/server.js:442-543).
The two store queries arrive as parameters mirroring supabase's
`{data, error}` results; `sessionTokens` is the truthiness of
`req.session.tokens` and `googleData` is whatever the Google-Calendar
fallback fetch would produce if it were consulted (`none` for a fetch
error).  No authentication check guards this route.  A `.error` result
models a thrown exception: when the snapshot's `name` is null,
`calendarData.name.replace` (src/server.js:540) throws a TypeError
before `res.send`, so no response goes out. -/
def feedHandler (now : JSDate) (calResult : Except String DbCalendar)
    (eventsResult : Except String (List EventRow))
    (sessionTokens : Bool) (googleData : Option CalendarSnapshot) :
    Except String HttpResponse :=
  match calResult with
  | .error _ =>
    .ok { status := 404, contentType := none, contentDisposition := none,
          cacheControl := none, body := "Calendar not found" }
  | .ok calendar =>
    let calendarData : Option CalendarSnapshot := some (dbSnapshot calendar eventsResult)
    let calendarData :=
      if calendarData.isNone && sessionTokens then
        match googleData with
        | some g => some g
        | none => calendarData
      else calendarData
    match calendarData with
    | none =>
      .ok { status := 404, contentType := none, contentDisposition := none,
            cacheControl := none, body := "Calendar not found" }
    | some cd =>
      let icsContent := generateCalendarFeed now cd
      match cd.name with
      | none => .error "TypeError: Cannot read properties of null (reading replace)"
      | some nm =>
        .ok { status := 200, contentType := some "text/calendar; charset=utf-8",
              contentDisposition :=
                some ("inline; filename=\"" ++ sanitizeFilename nm ++ ".ics\""),
              cacheControl := some "no-cache, no-store, must-revalidate",
              body := icsContent }

/-- C6 counterexample: with the calendar row present but the events
query failing, the endpoint sends a 200 response with a rendered feed
(the failure is only logged), not a 500 error as the claim states. -/
theorem claim6_feed_cex :
    feedHandler ⟨2024, 1, 1, 0, 0, 0, 0⟩ (.ok ⟨"1", "gcal1", some "Team", none⟩)
        (.error "db down") false none =
      .ok ⟨200, some "text/calendar; charset=utf-8",
        some "inline; filename=\"Team.ics\"", some "no-cache, no-store, must-revalidate",
        generateCalendarFeed ⟨2024, 1, 1, 0, 0, 0, 0⟩
          ⟨"gcal1", some "Team", none, some []⟩⟩ ∧
    ∀ r, feedHandler ⟨2024, 1, 1, 0, 0, 0, 0⟩ (.ok ⟨"1", "gcal1", some "Team", none⟩)
        (.error "db down") false none = .ok r → r.status ≠ 500 := by
  refine ⟨rfl, ?_⟩
  intro r hr
  have : r.status = 200 := by
    cases hr
    rfl
  omega

/-- C6 (amended): the feed endpoint requires no authentication (no sent
response is ever 401); a failed calendar lookup yields 404 with no feed
body; when the calendar exists and its stored name is non-null, the
response is 200 with content-type `text/calendar; charset=utf-8` and
body equal to the renderer's output on the database snapshot; when the
stored name is null the handler throws computing the
Content-Disposition filename and no response is sent; a store failure
on the events query is logged and downgraded, the feed being served
with an empty event list rather than a 500. -/
theorem claim6_feed_amended (now : JSDate) (calResult : Except String DbCalendar)
    (eventsResult : Except String (List EventRow)) (s : Bool)
    (g : Option CalendarSnapshot) :
    (∀ e, calResult = .error e →
      feedHandler now calResult eventsResult s g =
        .ok ⟨404, none, none, none, "Calendar not found"⟩) ∧
    (∀ c nm, calResult = .ok c → c.name = some nm →
      feedHandler now calResult eventsResult s g =
        .ok ⟨200, some "text/calendar; charset=utf-8",
          some ("inline; filename=\"" ++ sanitizeFilename nm ++ ".ics\""),
          some "no-cache, no-store, must-revalidate",
          generateCalendarFeed now (dbSnapshot c eventsResult)⟩) ∧
    (∀ c, calResult = .ok c → c.name = none →
      feedHandler now calResult eventsResult s g =
        .error "TypeError: Cannot read properties of null (reading replace)") ∧
    (∀ r, feedHandler now calResult eventsResult s g = .ok r → r.status ≠ 401) ∧
    (∀ c nm err, calResult = .ok c → c.name = some nm → eventsResult = .error err →
      feedHandler now calResult eventsResult s g =
        .ok ⟨200, some "text/calendar; charset=utf-8",
          some ("inline; filename=\"" ++ sanitizeFilename nm ++ ".ics\""),
          some "no-cache, no-store, must-revalidate",
          generateCalendarFeed now
            ⟨c.google_calendar_id, c.name, c.description, some []⟩⟩) := by
  refine ⟨?_, ?_, ?_, ?_, ?_⟩
  · intro e he
    subst he
    rfl
  · intro c nm hc hname
    subst hc
    obtain ⟨cid, gid, cname, cdesc⟩ := c
    cases hname
    rfl
  · intro c hc hname
    subst hc
    obtain ⟨cid, gid, cname, cdesc⟩ := c
    cases hname
    rfl
  · intro r hr
    match calResult with
    | .error e =>
      cases hr
      decide
    | .ok ⟨cid, gid, none, cdesc⟩ => exact absurd hr (by simp [feedHandler, dbSnapshot])
    | .ok ⟨cid, gid, some nm, cdesc⟩ =>
      cases hr
      show (200 : Nat) ≠ 401
      decide
  · intro c nm err hc hname herr
    subst hc
    subst herr
    obtain ⟨cid, gid, cname, cdesc⟩ := c
    cases hname
    rfl

/-- C6 witness: concrete instances of the behaviours — 404 on a failed
lookup, 200 with an empty-events feed when the events query fails, and
the thrown TypeError when the stored name is null. -/
theorem claim6_feed_witness :
    feedHandler ⟨2024, 1, 1, 0, 0, 0, 0⟩ (.error "no rows") (.ok []) false none =
      .ok ⟨404, none, none, none, "Calendar not found"⟩ ∧
    feedHandler ⟨2024, 1, 1, 0, 0, 0, 0⟩ (.ok ⟨"1", "gcal1", some "Team", none⟩)
        (.error "db down") false none =
      .ok ⟨200, some "text/calendar; charset=utf-8",
        some ("inline; filename=\"" ++ sanitizeFilename "Team" ++ ".ics\""),
        some "no-cache, no-store, must-revalidate",
        generateCalendarFeed ⟨2024, 1, 1, 0, 0, 0, 0⟩
          ⟨"gcal1", some "Team", none, some []⟩⟩ ∧
    feedHandler ⟨2024, 1, 1, 0, 0, 0, 0⟩ (.ok ⟨"1", "gcal1", none, none⟩)
        (.ok []) false none =
      .error "TypeError: Cannot read properties of null (reading replace)" := by
  refine ⟨?_, ?_, ?_⟩
  · exact (claim6_feed_amended ⟨2024, 1, 1, 0, 0, 0, 0⟩ (.error "no rows") (.ok [])
      false none).1 "no rows" rfl
  · exact (claim6_feed_amended ⟨2024, 1, 1, 0, 0, 0, 0⟩
      (.ok ⟨"1", "gcal1", some "Team", none⟩) (.error "db down") false none).2.2.2.2
      ⟨"1", "gcal1", some "Team", none⟩ "Team" "db down" rfl rfl rfl
  · exact (claim6_feed_amended ⟨2024, 1, 1, 0, 0, 0, 0⟩
      (.ok ⟨"1", "gcal1", none, none⟩) (.ok []) false none).2.2.1
      ⟨"1", "gcal1", none, none⟩ rfl rfl

/-- C10: in the current draft `calendarData` is always the object built
from the database rows, so the Google-Calendar fallback and the second
404 branch are dead: the handler's outcome — sent response or thrown
error — is independent of the session state and of anything the
external provider would return, and every response actually sent for a
successful lookup is the 200 feed derived from the database snapshot
alone (a null stored name throws before any response, sending
nothing — in particular not the fallback 404). -/
theorem claim10_fallback_unreachable (now : JSDate)
    (calResult : Except String DbCalendar)
    (eventsResult : Except String (List EventRow)) (s1 s2 : Bool)
    (g1 g2 : Option CalendarSnapshot) :
    feedHandler now calResult eventsResult s1 g1 =
      feedHandler now calResult eventsResult s2 g2 ∧
    (∀ c r, calResult = .ok c →
      feedHandler now calResult eventsResult s1 g1 = .ok r →
      r.status = 200 ∧ r.body = generateCalendarFeed now (dbSnapshot c eventsResult)) := by
  constructor
  · match calResult with
    | .error e => rfl
    | .ok ⟨cid, gid, none, cdesc⟩ => rfl
    | .ok ⟨cid, gid, some nm, cdesc⟩ => rfl
  · intro c r hc hr
    subst hc
    obtain ⟨cid, gid, cname, cdesc⟩ := c
    match cname, hr with
    | some nm, hr =>
      cases hr
      exact ⟨rfl, rfl⟩

/-- C10 witness: with a live session and available Google data, the
outcome still equals the session-free, provider-free one, and the
successful lookup's sent response is the database-derived 200 feed. -/
theorem claim10_fallback_unreachable_witness :
    feedHandler ⟨2024, 1, 1, 0, 0, 0, 0⟩ (.ok ⟨"1", "gcal1", some "Team", none⟩)
        (.ok []) true (some ⟨"other", some "Google", none, some []⟩) =
      feedHandler ⟨2024, 1, 1, 0, 0, 0, 0⟩ (.ok ⟨"1", "gcal1", some "Team", none⟩)
        (.ok []) false none ∧
    (⟨200, some "text/calendar; charset=utf-8",
      some ("inline; filename=\"" ++ sanitizeFilename "Team" ++ ".ics\""),
      some "no-cache, no-store, must-revalidate",
      generateCalendarFeed ⟨2024, 1, 1, 0, 0, 0, 0⟩
        (dbSnapshot ⟨"1", "gcal1", some "Team", none⟩ (.ok []))⟩ : HttpResponse).status = 200 ∧
    (⟨200, some "text/calendar; charset=utf-8",
      some ("inline; filename=\"" ++ sanitizeFilename "Team" ++ ".ics\""),
      some "no-cache, no-store, must-revalidate",
      generateCalendarFeed ⟨2024, 1, 1, 0, 0, 0, 0⟩
        (dbSnapshot ⟨"1", "gcal1", some "Team", none⟩ (.ok []))⟩ : HttpResponse).body =
      generateCalendarFeed ⟨2024, 1, 1, 0, 0, 0, 0⟩
        (dbSnapshot ⟨"1", "gcal1", some "Team", none⟩ (.ok [])) := by
  have h := claim10_fallback_unreachable ⟨2024, 1, 1, 0, 0, 0, 0⟩
    (.ok ⟨"1", "gcal1", some "Team", none⟩) (.ok []) true false
    (some ⟨"other", some "Google", none, some []⟩) none
  have h2 := h.2 ⟨"1", "gcal1", some "Team", none⟩
    ⟨200, some "text/calendar; charset=utf-8",
      some ("inline; filename=\"" ++ sanitizeFilename "Team" ++ ".ics\""),
      some "no-cache, no-store, must-revalidate",
      generateCalendarFeed ⟨2024, 1, 1, 0, 0, 0, 0⟩
        (dbSnapshot ⟨"1", "gcal1", some "Team", none⟩ (.ok []))⟩ rfl rfl
  exact ⟨h.1, h2.1, h2.2⟩

/-- The credential-failure taxonomy of spec §4.2 / §7. -/
inductive AuthError
  | Unauthenticated
  | InvalidToken
  | Expired
deriving DecidableEq

/-- Modelled from the spec: the repository drafts contain no signed
session-token verifier — their mutation handlers only check the presence
of `req.session.tokens` (src/server.js:217-219) and answer 401
otherwise.  Spec §4.2 describes `verifySession` over a signed,
self-contained credential embedding `{email, issuedAt, expiresAt}`. -/
structure SessionPayload where
  email : String
  issuedAt : Int
  expiresAt : Int
deriving DecidableEq

/-- Modelled from the spec: a signed session token — payload plus the
symmetric signature computed from the server-held secret. -/
structure SessionToken where
  payload : SessionPayload
  sig : Nat
deriving DecidableEq

/-- Modelled from the spec: the symmetric signature over the payload
under the server-held secret (a concrete deterministic keyed digest;
the spec fixes no algorithm). -/
def signToken (secret : Nat) (p : SessionPayload) : Nat :=
  (p.email.data.foldl (fun a c => a * 131 + c.toNat + 1) (secret + 7)) * 1000003 +
    p.issuedAt.natAbs * 31 + p.expiresAt.natAbs

/-- Modelled from the spec: `issueSession(email)` produces a signed token
embedding the email, the issue instant and `expiresAt = issuedAt + 7d`
(in milliseconds), with no database interaction. -/
def issueSession (secret : Nat) (email : String) (now : Int) : SessionToken :=
  let p : SessionPayload :=
    { email := email, issuedAt := now, expiresAt := now + 7 * 24 * 60 * 60 * 1000 }
  { payload := p, sig := signToken secret p }

/-- Decimal rendering of an integer (sign plus digits). -/
def intChars (i : Int) : List Char :=
  if i < 0 then '-' :: natDigits i.natAbs else natDigits i.natAbs

/-- Modelled from the spec: the wire form of a session token —
email, issue instant, expiry and signature, bar-separated. -/
def renderSessionToken (t : SessionToken) : String :=
  String.mk (t.payload.email.data ++ '|' :: (intChars t.payload.issuedAt ++
    '|' :: (intChars t.payload.expiresAt ++ '|' :: natDigits t.sig)))

/-- Parse a digit run into a number; anything else is malformed. -/
def parseNatChars (l : List Char) : Option Nat :=
  if !l.isEmpty && l.all Char.isDigit then
    some (l.foldl (fun a c => a * 10 + (c.toNat - 48)) 0)
  else none

/-- Parse an optionally-signed digit run. -/
def parseIntChars (l : List Char) : Option Int :=
  match l with
  | '-' :: rest => (parseNatChars rest).map (fun n => -(n : Int))
  | _ => (parseNatChars l).map (fun n => (n : Int))

/-- Modelled from the spec: parsing of the wire token; garbage input
(wrong field count, malformed numbers) yields `none`. -/
def parseSessionToken (s : String) : Option SessionToken :=
  match splitOnChar '|' s.data with
  | [e, i, x, g] =>
    match parseIntChars i, parseIntChars x, parseNatChars g with
    | some iv, some xv, some gv =>
      some { payload := { email := String.mk e, issuedAt := iv, expiresAt := xv },
             sig := gv }
    | _, _, _ => none
  | _ => none

/-- Modelled from the spec: `verifySession` — `Unauthenticated` when no
token accompanies the request, `InvalidToken` when the token is
malformed or its signature check fails, `Expired` when `now <
expiresAt` fails, and otherwise the embedded email.  A pure function:
no database access, no side effects. -/
def verifySession (secret : Nat) (now : Int) (requestToken : Option String) :
    Except AuthError String :=
  match requestToken with
  | none => .error .Unauthenticated
  | some s =>
    match parseSessionToken s with
    | none => .error .InvalidToken
    | some t =>
      if t.sig ≠ signToken secret t.payload then .error .InvalidToken
      else if t.payload.expiresAt ≤ now then .error .Expired
      else .ok t.payload.email

/-- C2: session verification fails `Unauthenticated` exactly when no
token is supplied, `InvalidToken` when the token is malformed or its
signature check fails, `Expired` when the embedded expiry has passed,
and otherwise succeeds with the embedded email — by construction
without database access or side effects. -/
theorem claim2_verifySession (secret : Nat) (now : Int) :
    verifySession secret now none = .error .Unauthenticated ∧
    (∀ s, parseSessionToken s = none →
      verifySession secret now (some s) = .error .InvalidToken) ∧
    (∀ s t, parseSessionToken s = some t → t.sig ≠ signToken secret t.payload →
      verifySession secret now (some s) = .error .InvalidToken) ∧
    (∀ s t, parseSessionToken s = some t → t.sig = signToken secret t.payload →
      t.payload.expiresAt ≤ now →
      verifySession secret now (some s) = .error .Expired) ∧
    (∀ s t, parseSessionToken s = some t → t.sig = signToken secret t.payload →
      now < t.payload.expiresAt →
      verifySession secret now (some s) = .ok t.payload.email) := by
  refine ⟨rfl, ?_, ?_, ?_, ?_⟩
  · intro s hs
    simp [verifySession, hs]
  · intro s t hs hsig
    simp [verifySession, hs, hsig]
  · intro s t hs hsig hexp
    simp [verifySession, hs, hsig, hexp]
  · intro s t hs hsig hexp
    have hexp' : ¬t.payload.expiresAt ≤ now := by omega
    simp [verifySession, hs, hsig, hexp']

/-- C2 witness: no token, a garbage token, and a freshly issued token
verified within its validity window. -/
theorem claim2_verifySession_witness :
    verifySession 12345 0 none = .error .Unauthenticated ∧
    verifySession 12345 0 (some "garbage") = .error .InvalidToken ∧
    verifySession 12345 3600000
        (some (renderSessionToken (issueSession 12345 "a@b.com" 0))) =
      .ok "a@b.com" := by
  refine ⟨(claim2_verifySession 12345 0).1, ?_, ?_⟩
  · exact (claim2_verifySession 12345 0).2.1 "garbage" (by decide)
  · exact (claim2_verifySession 12345 3600000).2.2.2.2
      (renderSessionToken (issueSession 12345 "a@b.com" 0))
      (issueSession 12345 "a@b.com" 0) (by decide) (by decide) (by decide)

set_option maxRecDepth 100000 in
/-- C8 counterexample: rendering is not a function of the snapshot
alone — the same snapshot rendered at two different instants yields
different documents, because `DTSTAMP` embeds the render-time clock. -/
theorem claim8_determinism_cex :
    generateCalendarFeed ⟨2024, 1, 1, 0, 0, 0, 0⟩
        ⟨"gcal1", some "Team", none,
          some [⟨"e1", some "Standup", none, none, ⟨2024, 6, 1⟩, some ⟨9, 0⟩, none⟩]⟩ ≠
      generateCalendarFeed ⟨2024, 1, 1, 0, 0, 1, 0⟩
        ⟨"gcal1", some "Team", none,
          some [⟨"e1", some "Standup", none, none, ⟨2024, 6, 1⟩, some ⟨9, 0⟩, none⟩]⟩ := by
  decide

set_option maxRecDepth 16000 in
/-- C8 (amended): given the snapshot together with the generation
instant, rendering is total and deterministic — it always produces a
document that opens with the header marker and ends with the closing
marker, and equal inputs give byte-identical output. -/
theorem claim8_determinism_amended (now : JSDate) (cal : CalendarSnapshot) :
    (∃ mid, (generateCalendarFeed now cal).data =
      "BEGIN:VCALENDAR".data ++ mid ++ "END:VCALENDAR".data) ∧
    generateCalendarFeed now cal = generateCalendarFeed now cal := by
  refine ⟨?_, rfl⟩
  rw [generateCalendarFeed_structure]
  refine ⟨("\nVERSION:2.0\nPRODID:-//Calendar App//WhatsApp Calendar//EN\nCALSCALE:GREGORIAN\nMETHOD:PUBLISH\nX-WR-CALNAME:" : String).data ++
    ((escapeICSText cal.name).data ++
      ((if truthy cal.description then
          "\nX-WR-CALDESC:" ++ escapeICSText cal.description else "").data ++
        (("\nX-WR-TIMEZONE:UTC\nREFRESH-INTERVAL;VALUE=DURATION:PT1H\nX-PUBLISHED-TTL:PT1H\n" : String).data ++
          (concatMapStr (specEventBlock now) (cal.events.getD [])).data))), ?_⟩
  unfold specHeader
  by_cases h : truthy cal.description
  · simp only [h, if_true, String.data_append]
    simp [List.append_assoc, List.cons_append]
  · simp only [h, if_false, Bool.false_eq_true, String.data_append, String.append_empty]
    simp [List.append_assoc, List.cons_append]

/-- C9: the feed renderers of the two drafts agree byte for byte on
every snapshot and generation instant. -/
theorem claim9_drafts_equal (now : JSDate) (cal : CalendarSnapshot) :
    generateCalendarFeed now cal = OldSrv.generateCalendarFeed now cal := rfl

end WhatsAppCal
